import Mathlib

/-!
Shallow embedding of the catalog client in `src/opengeo/geoserver/catalog.py`
(the `Catalog` class): the five-second response cache, `get_xml`, the generic
`save`/`delete` helpers, the name-resolution operations (`get_store`,
`get_resource`, `get_style`, `get_workspace`, `get_layer`) and the mutating
creation helpers.  HTTP transport, XML parsing and the entity classes living
in other modules (`store.py`, `layer.py`, `support.py`) are external
collaborators: they enter the model as explicit inputs (a transport response,
a parse function, the parsed listing contents carried by workspace/store
records).
-/

namespace Opengeo

/-- An HTTP request issued by the catalog: method, URL and body. -/
structure Request where
  method : String
  url : String
  body : String
deriving Repr, DecidableEq

/-- A transport-level HTTP response: status code and raw payload
(`response, content = self.http.request(...)`). -/
structure HttpResponse where
  status : Nat
  content : String
deriving Repr, DecidableEq

/-- The response cache `self._cache`: a finite map from request URL to
`(timestamp, raw payload)`, modelled as an association list.  Timestamps are
in microseconds (the resolution of Python `datetime`). -/
abbrev Cache := List (String × Nat × String)

/-- `self._cache.get(rest_url)` (catalog.py line 143). -/
def cacheGet (c : Cache) (u : String) : Option (Nat × String) :=
  (c.find? (fun e => e.1 == u)).map (fun e => e.2)

/-- `self._cache[rest_url] = (datetime.now(), content)` (catalog.py line 162):
dictionary assignment replaces any previous entry for the key. -/
def cachePut (c : Cache) (u : String) (ts : Nat) (raw : String) : Cache :=
  (u, ts, raw) :: c.filter (fun e => ¬(e.1 == u))

/-- `timedelta(seconds=5)` in microseconds (catalog.py line 146). -/
def fiveSeconds : Nat := 5000000

/-- Outcome of `Catalog.get_xml`: a parsed tree, the wrapped decode error of
`parse_or_raise`, or `FailedRequestError` for a non-200 status.  `α` is the
type of parsed XML trees (the parser itself is external). -/
inductive FetchResult (α : Type) where
  | parsed (tree : α)
  | decodeError (msg : String)
  | failedRequest (body : String)
deriving Repr, DecidableEq

/-- `parse_or_raise` (catalog.py lines 148-154): parse the raw text, wrapping
a parser failure in an error whose message is
`"GeoServer gave non-XML response for [GET %s]: %s" % (rest_url, xml)`. -/
def parse_or_raise (parse : String → Option α) (rest_url xml : String) :
    FetchResult α :=
  match parse xml with
  | some t => .parsed t
  | none =>
      .decodeError
        ("GeoServer gave non-XML response for [GET " ++ rest_url ++ "]: " ++ xml)

/-- The full result of one `get_xml` call: the value returned or error raised,
the cache state afterwards, and whether `self.http.request` was invoked. -/
structure GetXmlOut (α : Type) where
  result : FetchResult α
  cache : Cache
  transportCalled : Bool
deriving Repr, DecidableEq

/-- The cache-miss/stale path of `get_xml` (catalog.py lines 159-165): issue
the GET; on status 200 store `(now, content)` and parse it (the cache write
happens before parsing, so it persists even when parsing then fails); on any
other status raise `FailedRequestError(content)` without touching the cache. -/
def getXmlFetch (parse : String → Option α) (transport : HttpResponse)
    (now : Nat) (cache : Cache) (rest_url : String) : GetXmlOut α :=
  if transport.status = 200 then
    ⟨parse_or_raise parse rest_url transport.content,
      cachePut cache rest_url now transport.content, true⟩
  else
    ⟨.failedRequest transport.content, cache, true⟩

/-- `Catalog.get_xml` (catalog.py lines 140-165).  `is_valid` holds when a
cached entry exists and `now - timestamp < timedelta(seconds=5)`; a valid
entry is parsed with no transport call, otherwise the URL is fetched.
`transport` is the response the HTTP layer would give; `now` stands for both
`datetime.now()` readings of the call. -/
def get_xml (parse : String → Option α) (transport : HttpResponse) (now : Nat)
    (cache : Cache) (rest_url : String) : GetXmlOut α :=
  match cacheGet cache rest_url with
  | some (ts, raw) =>
      if now - ts < fiveSeconds then
        ⟨parse_or_raise parse rest_url raw, cache, false⟩
      else
        getXmlFetch parse transport now cache rest_url
  | none => getXmlFetch parse transport now cache rest_url

/-- Outcome of a mutating catalog call: the Python return value or the
exception raised. -/
inductive CallResult where
  | ok (body : String)
  | failedRequest (body : String)
  | uploadError (body : String)
  | conflictingData (msg : String)
  | emptyCredentials
  | undefinedUser
  | assertionError
deriving Repr, DecidableEq

/-- Result of a mutating catalog operation: the HTTP requests it issued, its
outcome, and the cache state afterwards. -/
structure MutOut where
  requests : List Request
  result : CallResult
  cache : Cache
deriving Repr, DecidableEq

/-- URL construction in `Catalog.delete` (catalog.py lines 112-126): append
`purge=true` / `recurse=true` query parameters to the entity's `href`. -/
def deleteUrl (href : String) (purge recurse : Bool) : String :=
  match (if purge then ["purge=true"] else []) ++
      (if recurse then ["recurse=true"] else []) with
  | [] => href
  | params => href ++ "?" ++ String.intercalate "&" params

/-- `Catalog.delete` (catalog.py lines 107-138): DELETE the entity's REST
location, clear the whole cache unconditionally, then return the response on
status 200 and raise `FailedRequestError(content)` on any other status. -/
def delete (href : String) (purge recurse : Bool) (transport : HttpResponse)
    (cache : Cache) : MutOut :=
  let req : Request := ⟨"DELETE", deleteUrl href purge recurse, ""⟩
  if transport.status = 200 then ⟨[req], .ok transport.content, []⟩
  else ⟨[req], .failedRequest transport.content, []⟩

/-- `Catalog.save` (catalog.py lines 173-193): send the entity's message to
its REST location with its own `save_method`, clear the whole cache, then
raise `FailedRequestError(body)` whenever `400 <= status < 600`. -/
def save (href save_method message : String) (status : Nat) (body : String)
    (cache : Cache) : MutOut :=
  let req : Request := ⟨save_method, href, message⟩
  if 400 ≤ status ∧ status < 600 then ⟨[req], .failedRequest body, []⟩
  else ⟨[req], .ok body, []⟩

/-- A resource entry inside a store, as produced by `store.get_resources()`
(store.py, an external collaborator): its name plus an opaque tag standing
for the remainder of the parsed index node. -/
structure ResourceEntry where
  name : String
  node : Nat
deriving Repr, DecidableEq, Inhabited

/-- A store index entry as it appears in a workspace's datastore or
coveragestore listing document: the text of its `name` element, an opaque tag
for the rest of the node, and the resources the store would report. -/
structure StoreEntry where
  name : String
  node : Nat
  resources : List ResourceEntry
deriving Repr, DecidableEq, Inhabited

/-- A workspace together with the remote state behind its listing endpoints:
the entries of `get_xml(workspace.datastore_url)`, of
`get_xml(workspace.coveragestore_url)`, and the names of the styles served
under `workspaces/<ws>/styles/`. -/
structure WorkspaceData where
  name : String
  dataStores : List StoreEntry
  coverageStores : List StoreEntry
  styles : List String
deriving Repr, DecidableEq, Inhabited

/-- The typed store handle built by `datastore_from_index` /
`coveragestore_from_index` (store.py): a tagged variant recording which
listing produced the entry, the owning workspace and the index node. -/
inductive StoreHandle where
  | dataStore (workspace : String) (entry : StoreEntry)
  | coverageStore (workspace : String) (entry : StoreEntry)
deriving Repr, DecidableEq

/-- Outcome of a lookup method: a value returned, Python `None` returned,
or a `FailedRequestError` / `AmbiguousRequestError` raised. -/
inductive Lookup (α : Type) where
  | ok (a : α)
  | retNone
  | failedRequest (msg : String)
  | ambiguousRequest (msg : String)
deriving Repr, DecidableEq

/-- The workspace-scoped branch of `Catalog.get_store` (catalog.py lines
214-233): filter both listings by exact name, then classify by the pair of
match counts. -/
def get_store_in_workspace (name : String) (ws : WorkspaceData) :
    Lookup StoreHandle :=
  if (ws.dataStores.filter (fun n => n.name == name)).length = 1 ∧
      (ws.coverageStores.filter (fun n => n.name == name)).length = 0 then
    .ok (.dataStore ws.name
      ((ws.dataStores.filter (fun n => n.name == name)).headD default))
  else if (ws.dataStores.filter (fun n => n.name == name)).length = 0 ∧
      (ws.coverageStores.filter (fun n => n.name == name)).length = 1 then
    .ok (.coverageStore ws.name
      ((ws.coverageStores.filter (fun n => n.name == name)).headD default))
  else if (ws.dataStores.filter (fun n => n.name == name)).length = 0 ∧
      (ws.coverageStores.filter (fun n => n.name == name)).length = 0 then
    .failedRequest ("No store found in " ++ ws.name ++ " named: " ++ name)
  else
    .ambiguousRequest
      (ws.name ++ " and name: " ++ name ++ " do not uniquely identify a layer")

/-- The loop of the unscoped branch of `Catalog.get_store` (catalog.py lines
197-213): try the scoped lookup in each workspace under a bare `except: pass`
(so any failure, not only not-found, leaves `found = None`); raise
`AmbiguousRequestError` on a second success; finally raise
`FailedRequestError` when nothing was found.  `acc` is the `store` local. -/
def get_store_loop (name : String) :
    List WorkspaceData → Option StoreHandle → Lookup StoreHandle
  | [], none => .failedRequest ("No store found named: " ++ name)
  | [], some s => .ok s
  | ws :: rest, acc =>
      match get_store_in_workspace name ws, acc with
      | .ok _, some _ =>
          .ambiguousRequest ("Multiple stores found named: " ++ name)
      | .ok s, none => get_store_loop name rest (some s)
      | _, _ => get_store_loop name rest acc

/-- `Catalog.get_store` with `workspace=None` (catalog.py lines 197-213). -/
def get_store_unscoped (name : String) (wss : List WorkspaceData) :
    Lookup StoreHandle :=
  get_store_loop name wss none

/-- The per-workspace results the unscoped `get_store` loop treats as
successes: the scoped lookups that return a store (every raising outcome is
swallowed by the bare `except`). -/
def store_successes (name : String) (wss : List WorkspaceData) :
    List StoreHandle :=
  wss.filterMap (fun ws =>
    match get_store_in_workspace name ws with
    | .ok s => some s
    | _ => none)

/-- `Catalog.get_workspace` (catalog.py lines 644-651): filter the workspace
listing by name; zero candidates returns `None`, more than one raises
`AmbiguousRequestError()`, exactly one is returned. -/
def get_workspace (name : String) (wss : List WorkspaceData) :
    Lookup WorkspaceData :=
  if (wss.filter (fun w => w.name == name)).length = 0 then .retNone
  else if 1 < (wss.filter (fun w => w.name == name)).length then
    .ambiguousRequest ""
  else .ok ((wss.filter (fun w => w.name == name)).headD default)

/-- The store-scoped branch of `Catalog.get_resource` (catalog.py lines
493-501): filter the store's resources by name; zero candidates returns
`None`, more than one raises `AmbiguousRequestError`, else `candidates[0]`. -/
def get_resource_in_store (name : String) (st : StoreEntry) :
    Lookup ResourceEntry :=
  if (st.resources.filter (fun r => r.name == name)).length = 0 then .retNone
  else if 1 < (st.resources.filter (fun r => r.name == name)).length then
    .ambiguousRequest ""
  else .ok ((st.resources.filter (fun r => r.name == name)).headD default)

/-- `Catalog.get_stores(workspace)` (catalog.py lines 235-243): the datastore
listing followed by the coveragestore listing. -/
def WorkspaceData.stores (ws : WorkspaceData) : List StoreEntry :=
  ws.dataStores ++ ws.coverageStores

/-- The workspace-scoped loop of `Catalog.get_resource` (catalog.py lines
503-508): try each store of the workspace in order and return the first
non-`None` result (an `AmbiguousRequestError` raised inside one store
propagates); `None` when no store has the resource. -/
def get_resource_in_stores (name : String) :
    List StoreEntry → Lookup ResourceEntry
  | [] => .retNone
  | st :: rest =>
      match get_resource_in_store name st with
      | .retNone => get_resource_in_stores name rest
      | r => r

/-- `Catalog.get_resource` with a workspace and no store (catalog.py lines
503-508). -/
def get_resource_in_workspace (name : String) (ws : WorkspaceData) :
    Lookup ResourceEntry :=
  get_resource_in_stores name ws.stores

/-- `Catalog.get_resource` with neither store nor workspace (catalog.py lines
510-514): try each workspace in order, return the first non-`None` result. -/
def get_resource_unscoped (name : String) :
    List WorkspaceData → Lookup ResourceEntry
  | [] => .retNone
  | ws :: rest =>
      match get_resource_in_workspace name ws with
      | .retNone => get_resource_unscoped name rest
      | r => r

/-- The typed style handle (`Style(self, name, workspace)`, style.py). -/
structure Style where
  name : String
  workspace : Option String
deriving Repr, DecidableEq

/-- The workspace-scoped branch of `Catalog.get_style` (catalog.py lines
575-581): GET `workspaces/<ws>/styles/<name>.xml` and build the handle; any
failure of the keyed fetch (the style being absent there) yields `None`. -/
def get_style_in_workspace (name : String) (ws : WorkspaceData) :
    Option Style :=
  if ws.styles.contains name then some ⟨name, some ws.name⟩ else none

/-- The workspace loop of the unscoped branch of `Catalog.get_style`
(catalog.py lines 589-593): the first workspace whose scoped lookup is
non-`None` wins. -/
def style_ws_loop (name : String) : List WorkspaceData → Option Style
  | [] => none
  | ws :: rest =>
      match get_style_in_workspace name ws with
      | some s => some s
      | none => style_ws_loop name rest

/-- `Catalog.get_style` with `workspace=None` (catalog.py lines 582-593):
first try the global `styles/<name>.xml` document (`globalStyles` lists the
style names the server holds there), then fall back to the per-workspace
cascade. -/
def get_style (name : String) (globalStyles : List String)
    (wss : List WorkspaceData) : Option Style :=
  if globalStyles.contains name then some ⟨name, none⟩
  else style_ws_loop name wss

/-- Modelled from the spec: `Catalog.get_layer` (catalog.py lines 533-539)
delegates to `Layer(self, name).fetch()` in layer.py, which is not part of
this source tree; the spec says a layer is "fetched by name against a flat
listing endpoint (not scoped by workspace)", returning `None` on a
`FailedRequestError`. -/
def get_layer (name : String) (layers : List String) : Option String :=
  if layers.contains name then some name else none

/-- Modelled from the spec: `url(base, segments, params)` lives in
`support.py`, which is not part of this source tree.  The spec describes the
endpoints as "fixed path templates" under the service URL, so the helper
joins the base with the path segments using "/"; all call sites modelled here
pass an empty params dict. -/
def restUrl (base : String) (segments : List String) : String :=
  base ++ "/" ++ String.intercalate "/" segments

/-- The connection parameters of an existing postgis store as read back from
its index document (`store.connection_parameters`); the values are the XML
text nodes, hence strings. -/
structure ConnParams where
  host : String
  port : String
  database : String
  user : String
deriving Repr, DecidableEq, Inhabited

/-- The request body built by `create_pg_featurestore` (catalog.py lines
343-354). -/
def pgDatastoreXml (name host : String) (port : Nat)
    (database schema user passwd : String) : String :=
  "<dataStore>\n" ++
  "<name>" ++ name ++ "</name>\n" ++
  "<connectionParameters>" ++
  "<host>" ++ host ++ "</host>\n" ++
  "<port>" ++ toString port ++ "</port>\n" ++
  "<database>" ++ database ++ "</database>\n" ++
  "<schema>" ++ schema ++ "</schema>\n" ++
  "<user>" ++ user ++ "</user>\n" ++
  "<passwd>" ++ passwd ++ "</passwd>\n" ++
  "<dbtype>postgis</dbtype>\n" ++
  "</connectionParameters>\n" ++
  "</dataStore>"

/-- The request-issuing tail of `create_pg_featurestore` (catalog.py lines
331-367): raise on `user is None`, build the XML, PUT to the existing store's
endpoint when the store exists and POST to `datastores.xml` otherwise, clear
the cache, then raise `UploadError` unless the status is 201 or 200. -/
def pg_issue_request (serviceUrl name wsName : String) (storeExists : Bool)
    (host : String) (port : Nat) (database schema : String)
    (user : Option String) (passwd : String) (status : Nat)
    (respBody : String) (cache : Cache) : MutOut :=
  match user with
  | none => ⟨[], .undefinedUser, cache⟩
  | some u =>
      let req : Request :=
        if storeExists then
          ⟨"PUT", restUrl serviceUrl ["workspaces", wsName, "datastores", name],
            pgDatastoreXml name host port database schema u passwd⟩
        else
          ⟨"POST", restUrl serviceUrl ["workspaces", wsName, "datastores.xml"],
            pgDatastoreXml name host port database schema u passwd⟩
      if status ≠ 201 ∧ status ≠ 200 then ⟨[req], .uploadError respBody, []⟩
      else ⟨[req], .ok "", []⟩

/-- `Catalog.create_pg_featurestore` (catalog.py lines 303-367), entered
after the `get_store` lookup: `existing` is `some params` when the lookup
found a store with those connection parameters and `none` when it raised
`FailedRequestError`; the lookup's own GET traffic is not part of
`requests`.  With `overwrite` and an existing store whose
host/port/database/user all match the arguments
(`str(params['port']) == str(port)` compares the XML text with the printed
port) the call returns at once without issuing a request; without
`overwrite` it raises `ConflictingDataError`; otherwise it falls through to
`pg_issue_request`. -/
def create_pg_featurestore (serviceUrl name wsName : String)
    (existing : Option ConnParams) (overwrite : Bool) (host : String)
    (port : Nat) (database schema : String) (user : Option String)
    (passwd : String) (status : Nat) (respBody : String) (cache : Cache) :
    MutOut :=
  if user = some "" ∧ passwd = "" then ⟨[], .emptyCredentials, cache⟩
  else
    match existing with
    | some params =>
        if overwrite then
          if params.port = toString port ∧ params.database = database ∧
              params.host = host ∧ user = some params.user then
            ⟨[], .ok "", cache⟩
          else
            pg_issue_request serviceUrl name wsName true host port database
              schema user passwd status respBody cache
        else
          ⟨[], .conflictingData
            ("There is already a store named " ++ name ++ " in " ++ wsName),
            cache⟩
    | none =>
        pg_issue_request serviceUrl name wsName false host port database
          schema user passwd status respBody cache

/-- The request body built by `create_pg_featuretype` (catalog.py lines
384-392). -/
def featuretypeXml (name srs : String) : String :=
  "<featureType>\n" ++
  "<enabled>true</enabled>\n" ++
  "<metadata />\n" ++
  "<keywords><string>KEYWORD</string></keywords>\n" ++
  "<projectionPolicy>REPROJECT_TO_DECLARED</projectionPolicy>\n" ++
  "<title>" ++ name ++ "</title>\n" ++
  "<name>" ++ name ++ "</name>\n" ++
  "<srs>" ++ srs ++ "</srs>" ++
  "</featureType>"

/-- `Catalog.create_pg_featuretype` (catalog.py lines 369-397): POST the
feature-type XML to the store's `featuretypes.xml` endpoint and raise
`UploadError` unless the status is 201 or 200.  Unlike every other mutating
helper of the class, it never calls `self._cache.clear()`. -/
def create_pg_featuretype (serviceUrl name store wsName srs : String)
    (status : Nat) (respBody : String) (cache : Cache) : MutOut :=
  let req : Request :=
    ⟨"POST",
      restUrl serviceUrl
        ["workspaces", wsName, "datastores", store, "featuretypes.xml"],
      featuretypeXml name srs⟩
  if status ≠ 201 ∧ status ≠ 200 then ⟨[req], .uploadError respBody, cache⟩
  else ⟨[req], .ok "", cache⟩

/-- `Catalog.reload` (catalog.py lines 167-171): POST to `/reload`, then
clear the cache. -/
def reload (serviceUrl : String) (cache : Cache) : MutOut :=
  ⟨[⟨"POST", restUrl serviceUrl ["reload"], ""⟩], .ok "", []⟩

/-- `Catalog.add_data_to_store` (catalog.py lines 269-301), after store and
workspace resolution: PUT the zip bundle (body elided) to the store's
`file.shp` endpoint, clear the cache, raise `UploadError` unless 201. -/
def add_data_to_store (serviceUrl wsName storeName : String) (status : Nat)
    (respBody : String) (cache : Cache) : MutOut :=
  let req : Request :=
    ⟨"PUT",
      restUrl serviceUrl
        ["workspaces", wsName, "datastores", storeName, "file.shp"], ""⟩
  if status ≠ 201 then ⟨[req], .uploadError respBody, []⟩
  else ⟨[req], .ok "", []⟩

/-- `Catalog.create_shp_featurestore` (catalog.py lines 400-444), after the
collision probe: without `overwrite` an existing store raises
`ConflictingDataError` before any request; otherwise PUT the zip bundle
(body elided) to the store's `file.shp` endpoint, clear the cache, raise
`UploadError` unless 201. -/
def create_shp_featurestore (serviceUrl name wsName : String)
    (storeExists overwrite : Bool) (status : Nat) (respBody : String)
    (cache : Cache) : MutOut :=
  if ¬overwrite ∧ storeExists then
    ⟨[], .conflictingData
      ("There is already a store named " ++ name ++ " in " ++ wsName), cache⟩
  else
    let req : Request :=
      ⟨"PUT",
        restUrl serviceUrl
          ["workspaces", wsName, "datastores", name, "file.shp"], ""⟩
    if status ≠ 201 then ⟨[req], .uploadError respBody, []⟩
    else ⟨[req], .ok "", []⟩

/-- `Catalog.create_coveragestore` (catalog.py lines 446-491), after the
collision probe: without `overwrite` an existing store raises
`ConflictingDataError`; otherwise PUT the coverage data (body elided) to the
store's `file.<ext>` endpoint, clear the cache, raise `UploadError` unless
201. -/
def create_coveragestore (serviceUrl name wsName ext : String)
    (storeExists overwrite : Bool) (status : Nat) (respBody : String)
    (cache : Cache) : MutOut :=
  if ¬overwrite ∧ storeExists then
    ⟨[], .conflictingData
      ("There is already a store named " ++ name ++ " in " ++ wsName), cache⟩
  else
    let req : Request :=
      ⟨"PUT",
        restUrl serviceUrl
          ["workspaces", wsName, "coveragestores", name, "file." ++ ext], ""⟩
    if status ≠ 201 then ⟨[req], .uploadError respBody, []⟩
    else ⟨[req], .ok "", []⟩

/-- The style stub POSTed by `create_style` (catalog.py line 612), the
`"<style>...".format(name)` literal with its placeholders filled in. -/
def styleStubXml (name : String) : String :=
  "<style><name>" ++ name ++ "</name><filename>" ++ name ++
    ".sld</filename></style>"

/-- `Catalog.create_style` (catalog.py lines 600-625): without `overwrite` an
existing style raises `ConflictingDataError`; a POST of the style stub is
issued unless `overwrite` holds and the style exists, and a non-2xx POST
status raises `UploadError` before the cache is touched; then the SLD body is
PUT, the cache is cleared, and a non-2xx PUT status raises `UploadError`. -/
def create_style (serviceUrl name sld : String) (styleExists overwrite : Bool)
    (postStatus putStatus : Nat) (postResp putResp : String) (cache : Cache) :
    MutOut :=
  if ¬overwrite ∧ styleExists then
    ⟨[], .conflictingData ("There is already a style named " ++ name), cache⟩
  else
    let postReqs : List Request :=
      if ¬overwrite ∨ ¬styleExists then
        [⟨"POST", restUrl serviceUrl ["styles"] ++ "?name=" ++ name,
          styleStubXml name⟩]
      else []
    if (¬overwrite ∨ ¬styleExists) ∧ (postStatus < 200 ∨ 299 < postStatus) then
      ⟨postReqs, .uploadError postResp, cache⟩
    else
      let putReq : Request :=
        ⟨"PUT", restUrl serviceUrl ["styles", name ++ ".sld"], sld⟩
      if putStatus < 200 ∨ 299 < putStatus then
        ⟨postReqs ++ [putReq], .uploadError putResp, []⟩
      else ⟨postReqs ++ [putReq], .ok "", []⟩

/-- The namespace body POSTed by `create_workspace` (catalog.py lines
628-631). -/
def namespaceXml (name uri : String) : String :=
  "<namespace><prefix>" ++ name ++ "</prefix><uri>" ++ uri ++
    "</uri></namespace>"

/-- `Catalog.create_workspace` (catalog.py lines 627-638): POST the namespace
body, assert a 2xx status (an AssertionError leaves the cache untouched),
then clear the cache (the trailing `get_workspace` read is elided). -/
def create_workspace (serviceUrl name uri : String) (status : Nat)
    (cache : Cache) : MutOut :=
  let req : Request :=
    ⟨"POST", serviceUrl ++ "/namespaces/", namespaceXml name uri⟩
  if 200 ≤ status ∧ status < 300 then ⟨[req], .ok "", []⟩
  else ⟨[req], .assertionError, cache⟩

/-- `Catalog.set_default_workspace` (catalog.py lines 656-663): when the
workspace resolves, PUT its message to `workspaces/default.xml`, assert a 2xx
status, then clear the cache; when it does not resolve, do nothing. -/
def set_default_workspace (serviceUrl : String) (wsFound : Bool)
    (message : String) (status : Nat) (cache : Cache) : MutOut :=
  if wsFound then
    let req : Request := ⟨"PUT", serviceUrl ++ "/workspaces/default.xml", message⟩
    if 200 ≤ status ∧ status < 300 then ⟨[req], .ok "", []⟩
    else ⟨[req], .assertionError, cache⟩
  else ⟨[], .ok "", cache⟩

/-! ### Classification lemmas for the scoped lookups -/

theorem get_store_in_workspace_zero (name : String) (ws : WorkspaceData)
    (h : (ws.dataStores.filter (fun n => n.name == name)).length +
      (ws.coverageStores.filter (fun n => n.name == name)).length = 0) :
    get_store_in_workspace name ws =
      .failedRequest ("No store found in " ++ ws.name ++ " named: " ++ name) := by
  unfold get_store_in_workspace
  split_ifs <;> first | rfl | (exfalso; omega)

theorem get_store_in_workspace_many (name : String) (ws : WorkspaceData)
    (h : 2 ≤ (ws.dataStores.filter (fun n => n.name == name)).length +
      (ws.coverageStores.filter (fun n => n.name == name)).length) :
    get_store_in_workspace name ws =
      .ambiguousRequest (ws.name ++ " and name: " ++ name ++
        " do not uniquely identify a layer") := by
  unfold get_store_in_workspace
  split_ifs <;> first | rfl | (exfalso; omega)

theorem get_resource_in_store_zero (name : String) (st : StoreEntry)
    (h : (st.resources.filter (fun r => r.name == name)).length = 0) :
    get_resource_in_store name st = .retNone := by
  unfold get_resource_in_store
  split_ifs <;> first | rfl | (exfalso; omega)

theorem get_resource_in_store_many (name : String) (st : StoreEntry)
    (h : 2 ≤ (st.resources.filter (fun r => r.name == name)).length) :
    get_resource_in_store name st = .ambiguousRequest "" := by
  unfold get_resource_in_store
  split_ifs <;> first | rfl | (exfalso; omega)

theorem get_workspace_zero (name : String) (wss : List WorkspaceData)
    (h : (wss.filter (fun w => w.name == name)).length = 0) :
    get_workspace name wss = .retNone := by
  unfold get_workspace
  split_ifs <;> first | rfl | (exfalso; omega)

theorem get_workspace_many (name : String) (wss : List WorkspaceData)
    (h : 2 ≤ (wss.filter (fun w => w.name == name)).length) :
    get_workspace name wss = .ambiguousRequest "" := by
  unfold get_workspace
  split_ifs <;> first | rfl | (exfalso; omega)

/-! ### Claim theorems -/

/-- C1: every by-name lookup within a single scope — a store within a
workspace, a resource within a store, a workspace within the catalog, a style
within a workspace — resolves to exactly one entity: zero matches yields the
not-found outcome (a `FailedRequestError` for stores, `None` for the others),
more than one match raises `AmbiguousRequestError` rather than silently
returning the first match.  A style inside a workspace is fetched through a
keyed URL, so at most one match is possible and only the zero-match case
arises. -/
theorem c1_scoped_lookup_resolves_uniquely (name : String) (ws : WorkspaceData)
    (st : StoreEntry) (wss : List WorkspaceData) :
    ((ws.dataStores.filter (fun n => n.name == name)).length +
        (ws.coverageStores.filter (fun n => n.name == name)).length = 0 →
      get_store_in_workspace name ws =
        .failedRequest ("No store found in " ++ ws.name ++ " named: " ++ name)) ∧
    (2 ≤ (ws.dataStores.filter (fun n => n.name == name)).length +
        (ws.coverageStores.filter (fun n => n.name == name)).length →
      get_store_in_workspace name ws =
        .ambiguousRequest (ws.name ++ " and name: " ++ name ++
          " do not uniquely identify a layer")) ∧
    ((st.resources.filter (fun r => r.name == name)).length = 0 →
      get_resource_in_store name st = .retNone) ∧
    (2 ≤ (st.resources.filter (fun r => r.name == name)).length →
      get_resource_in_store name st = .ambiguousRequest "") ∧
    ((wss.filter (fun w => w.name == name)).length = 0 →
      get_workspace name wss = .retNone) ∧
    (2 ≤ (wss.filter (fun w => w.name == name)).length →
      get_workspace name wss = .ambiguousRequest "") ∧
    (ws.styles.contains name = false → get_style_in_workspace name ws = none) := by
  refine ⟨?_, ?_, ?_, ?_, ?_, ?_, ?_⟩
  · exact get_store_in_workspace_zero name ws
  · exact get_store_in_workspace_many name ws
  · exact get_resource_in_store_zero name st
  · exact get_resource_in_store_many name st
  · exact get_workspace_zero name wss
  · exact get_workspace_many name wss
  · intro h; unfold get_style_in_workspace; rw [h]; simp

theorem c1_witness :
    get_store_in_workspace "n" ⟨"w", [], [], []⟩ =
      .failedRequest ("No store found in " ++ "w" ++ " named: " ++ "n") ∧
    get_resource_in_store "n" ⟨"s", 0, [⟨"n", 0⟩, ⟨"n", 1⟩]⟩ =
      .ambiguousRequest "" := by
  constructor
  · exact (c1_scoped_lookup_resolves_uniquely "n" ⟨"w", [], [], []⟩
      ⟨"s", 0, []⟩ []).1 (by decide)
  · exact (c1_scoped_lookup_resolves_uniquely "n" ⟨"w", [], [], []⟩
      ⟨"s", 0, [⟨"n", 0⟩, ⟨"n", 1⟩]⟩ []).2.2.2.1 (by decide)

/-- C2: `get_store` with a workspace filters both listings by exact name and
classifies by match counts — exactly one match, necessarily in exactly one of
the two listings, yields the handle of that listing's variant; zero matches
in both raises `FailedRequestError`; any other combination (two in one
listing, or one in each) raises `AmbiguousRequestError`. -/
theorem c2_store_scoped_classification (name : String) (ws : WorkspaceData) :
    ((ws.dataStores.filter (fun n => n.name == name)).length = 1 ∧
        (ws.coverageStores.filter (fun n => n.name == name)).length = 0 →
      get_store_in_workspace name ws =
        .ok (.dataStore ws.name
          ((ws.dataStores.filter (fun n => n.name == name)).headD default))) ∧
    ((ws.dataStores.filter (fun n => n.name == name)).length = 0 ∧
        (ws.coverageStores.filter (fun n => n.name == name)).length = 1 →
      get_store_in_workspace name ws =
        .ok (.coverageStore ws.name
          ((ws.coverageStores.filter (fun n => n.name == name)).headD default))) ∧
    ((ws.dataStores.filter (fun n => n.name == name)).length = 0 ∧
        (ws.coverageStores.filter (fun n => n.name == name)).length = 0 →
      get_store_in_workspace name ws =
        .failedRequest ("No store found in " ++ ws.name ++ " named: " ++ name)) ∧
    (2 ≤ (ws.dataStores.filter (fun n => n.name == name)).length +
        (ws.coverageStores.filter (fun n => n.name == name)).length →
      get_store_in_workspace name ws =
        .ambiguousRequest (ws.name ++ " and name: " ++ name ++
          " do not uniquely identify a layer")) := by
  refine ⟨?_, ?_, ?_, ?_⟩
  · intro h
    unfold get_store_in_workspace
    split_ifs <;> first | rfl | (exfalso; omega)
  · intro h
    unfold get_store_in_workspace
    split_ifs <;> first | rfl | (exfalso; omega)
  · intro h
    exact get_store_in_workspace_zero name ws (by omega)
  · exact get_store_in_workspace_many name ws

theorem c2_witness :
    get_store_in_workspace "n" ⟨"w", [⟨"n", 7, []⟩], [], []⟩ =
      .ok (.dataStore "w" ⟨"n", 7, []⟩) ∧
    get_store_in_workspace "n" ⟨"w", [⟨"n", 7, []⟩], [⟨"n", 8, []⟩], []⟩ =
      .ambiguousRequest ("w" ++ " and name: " ++ "n" ++
        " do not uniquely identify a layer") := by
  constructor
  · exact (c2_store_scoped_classification "n" ⟨"w", [⟨"n", 7, []⟩], [], []⟩).1
      (by decide)
  · exact (c2_store_scoped_classification "n"
      ⟨"w", [⟨"n", 7, []⟩], [⟨"n", 8, []⟩], []⟩).2.2.2 (by decide)

/-! ### The unscoped `get_store` loop -/

theorem get_store_loop_some_spec (name : String) (s : StoreHandle) :
    ∀ wss : List WorkspaceData,
      get_store_loop name wss (some s) =
        if store_successes name wss = [] then .ok s
        else .ambiguousRequest ("Multiple stores found named: " ++ name) := by
  intro wss
  induction wss with
  | nil => simp [get_store_loop, store_successes]
  | cons ws rest ih =>
      cases h : get_store_in_workspace name ws with
      | ok s2 => simp [get_store_loop, store_successes, h]
      | retNone => simpa [get_store_loop, store_successes, h] using ih
      | failedRequest m => simpa [get_store_loop, store_successes, h] using ih
      | ambiguousRequest m => simpa [get_store_loop, store_successes, h] using ih

theorem get_store_loop_none_spec (name : String) :
    ∀ wss : List WorkspaceData,
      get_store_loop name wss none =
        match store_successes name wss with
        | [] => .failedRequest ("No store found named: " ++ name)
        | [s] => .ok s
        | _ :: _ :: _ =>
            .ambiguousRequest ("Multiple stores found named: " ++ name) := by
  intro wss
  induction wss with
  | nil => simp [get_store_loop, store_successes]
  | cons ws rest ih =>
      cases h : get_store_in_workspace name ws with
      | ok s2 =>
          have hloop : get_store_loop name (ws :: rest) none =
              get_store_loop name rest (some s2) := by
            simp [get_store_loop, h]
          have hcons : store_successes name (ws :: rest) =
              s2 :: store_successes name rest := by
            simp [store_successes, h]
          rw [hloop, get_store_loop_some_spec name s2 rest, hcons]
          cases hr : store_successes name rest with
          | nil => simp
          | cons a l => simp
      | retNone =>
          cases hr : store_successes name rest with
          | nil => simpa [get_store_loop, store_successes, h, hr] using ih
          | cons a l => simpa [get_store_loop, store_successes, h, hr] using ih
      | failedRequest m =>
          cases hr : store_successes name rest with
          | nil => simpa [get_store_loop, store_successes, h, hr] using ih
          | cons a l => simpa [get_store_loop, store_successes, h, hr] using ih
      | ambiguousRequest m =>
          cases hr : store_successes name rest with
          | nil => simpa [get_store_loop, store_successes, h, hr] using ih
          | cons a l => simpa [get_store_loop, store_successes, h, hr] using ih

/-- C3 counterexample: the unscoped `get_store` loop runs each scoped lookup
under a bare `except: pass`, so it also swallows failures that are not
"store absent there".  Here the first workspace holds two data stores named
`s` — its scoped lookup fails with `AmbiguousRequestError`, not with a
not-found — yet the unscoped lookup silently skips that workspace and
returns the single store of the second workspace. -/
theorem c3_counterexample :
    get_store_in_workspace "s" ⟨"ws1", [⟨"s", 0, []⟩, ⟨"s", 1, []⟩], [], []⟩ =
      .ambiguousRequest "ws1 and name: s do not uniquely identify a layer" ∧
    get_store_unscoped "s"
        [⟨"ws1", [⟨"s", 0, []⟩, ⟨"s", 1, []⟩], [], []⟩,
         ⟨"ws2", [⟨"s", 2, []⟩], [], []⟩] =
      .ok (.dataStore "ws2" ⟨"s", 2, []⟩) := by
  decide

/-- C3 (amended): `get_store` with the workspace omitted iterates all
workspaces, attempts the scoped lookup in each, and silently skips every
failing per-workspace lookup (the bare `except` swallows ambiguous failures
as well as "store absent there" ones); among the collected successes, zero
raises `FailedRequestError`, more than one raises `AmbiguousRequestError`,
and exactly one is returned. -/
theorem c3_unscoped_store_lookup (name : String) (wss : List WorkspaceData) :
    (store_successes name wss = [] →
      get_store_unscoped name wss =
        .failedRequest ("No store found named: " ++ name)) ∧
    (∀ s, store_successes name wss = [s] →
      get_store_unscoped name wss = .ok s) ∧
    (2 ≤ (store_successes name wss).length →
      get_store_unscoped name wss =
        .ambiguousRequest ("Multiple stores found named: " ++ name)) := by
  have h := get_store_loop_none_spec name wss
  unfold get_store_unscoped
  refine ⟨?_, ?_, ?_⟩
  · intro he; rw [he] at h; exact h
  · intro s he; rw [he] at h; exact h
  · intro hlen
    rcases hs : store_successes name wss with _ | ⟨a, _ | ⟨b, l⟩⟩
    · rw [hs] at hlen; simp at hlen
    · rw [hs] at hlen; simp at hlen
    · rw [hs] at h; exact h

theorem c3_witness :
    get_store_unscoped "n" [] =
      .failedRequest ("No store found named: " ++ "n") ∧
    get_store_unscoped "n"
        [⟨"w1", [⟨"n", 0, []⟩], [], []⟩, ⟨"w2", [], [⟨"n", 1, []⟩], []⟩] =
      .ambiguousRequest ("Multiple stores found named: " ++ "n") := by
  constructor
  · exact (c3_unscoped_store_lookup "n" []).1 (by decide)
  · exact (c3_unscoped_store_lookup "n"
      [⟨"w1", [⟨"n", 0, []⟩], [], []⟩, ⟨"w2", [], [⟨"n", 1, []⟩], []⟩]).2.2
      (by decide)

/-! ### First-match behaviour of the cascading lookups -/

theorem get_resource_unscoped_first (name : String) (r : ResourceEntry)
    (ws : WorkspaceData) (post : List WorkspaceData) :
    ∀ pre : List WorkspaceData,
      (∀ w ∈ pre, get_resource_in_workspace name w = .retNone) →
      get_resource_in_workspace name ws = .ok r →
      get_resource_unscoped name (pre ++ ws :: post) = .ok r
  | [], _, hws => by simp [get_resource_unscoped, hws]
  | p :: pre, hpre, hws => by
      have hp : get_resource_in_workspace name p = .retNone :=
        hpre p (List.mem_cons_self p pre)
      have ih := get_resource_unscoped_first name r ws post pre
        (fun w hw => hpre w (List.mem_cons_of_mem p hw)) hws
      simpa [get_resource_unscoped, hp] using ih

theorem style_ws_loop_first (name : String) (s : Style) (ws : WorkspaceData)
    (post : List WorkspaceData) :
    ∀ pre : List WorkspaceData,
      (∀ w ∈ pre, get_style_in_workspace name w = none) →
      get_style_in_workspace name ws = some s →
      style_ws_loop name (pre ++ ws :: post) = some s
  | [], _, hws => by simp [style_ws_loop, hws]
  | p :: pre, hpre, hws => by
      have hp : get_style_in_workspace name p = none :=
        hpre p (List.mem_cons_self p pre)
      have ih := style_ws_loop_first name s ws post pre
        (fun w hw => hpre w (List.mem_cons_of_mem p hw)) hws
      simpa [style_ws_loop, hp] using ih

/-- C7 counterexample: two workspaces each hold a store with a resource named
`r`.  The unscoped `get_resource` returns the first match instead of failing
with `AmbiguousRequestError`, while `get_store` on the analogous data — two
workspaces each holding one store named `s` — does raise the ambiguous
failure.  The cascades therefore do not share `get_store`'s multiple-match
contract. -/
theorem c7_counterexample :
    get_resource_in_workspace "r" ⟨"wsA", [⟨"stA", 0, [⟨"r", 0⟩]⟩], [], []⟩ =
      .ok ⟨"r", 0⟩ ∧
    get_resource_in_workspace "r" ⟨"wsB", [⟨"stB", 1, [⟨"r", 1⟩]⟩], [], []⟩ =
      .ok ⟨"r", 1⟩ ∧
    get_resource_unscoped "r"
        [⟨"wsA", [⟨"stA", 0, [⟨"r", 0⟩]⟩], [], []⟩,
         ⟨"wsB", [⟨"stB", 1, [⟨"r", 1⟩]⟩], [], []⟩] =
      .ok ⟨"r", 0⟩ ∧
    get_store_unscoped "s"
        [⟨"wsA", [⟨"s", 0, []⟩], [], []⟩, ⟨"wsB", [⟨"s", 1, []⟩], [], []⟩] =
      .ambiguousRequest ("Multiple stores found named: " ++ "s") := by
  decide

/-- C7 (amended): `get_resource` scoped by a store and `get_workspace` do
enforce the zero-match ("not found", returning `None`) and multiple-match
(`AmbiguousRequestError`) contract within their single scope, but the
cascading lookups — `get_resource` across stores and workspaces and
`get_style` across workspaces — return the first match found, skipping the
scopes before it, with no ambiguity detection across scopes; `get_layer`
takes no scope at all. -/
theorem c7_cascading_lookup (name : String) (st : StoreEntry)
    (wss pre post : List WorkspaceData) (ws : WorkspaceData)
    (r : ResourceEntry) (g : List String) (s : Style) :
    ((st.resources.filter (fun x => x.name == name)).length = 0 →
      get_resource_in_store name st = .retNone) ∧
    (2 ≤ (st.resources.filter (fun x => x.name == name)).length →
      get_resource_in_store name st = .ambiguousRequest "") ∧
    ((wss.filter (fun w => w.name == name)).length = 0 →
      get_workspace name wss = .retNone) ∧
    (2 ≤ (wss.filter (fun w => w.name == name)).length →
      get_workspace name wss = .ambiguousRequest "") ∧
    ((∀ w ∈ pre, get_resource_in_workspace name w = .retNone) →
      get_resource_in_workspace name ws = .ok r →
      get_resource_unscoped name (pre ++ ws :: post) = .ok r) ∧
    (g.contains name = false →
      (∀ w ∈ pre, get_style_in_workspace name w = none) →
      get_style_in_workspace name ws = some s →
      get_style name g (pre ++ ws :: post) = some s) := by
  refine ⟨?_, ?_, ?_, ?_, ?_, ?_⟩
  · exact get_resource_in_store_zero name st
  · exact get_resource_in_store_many name st
  · exact get_workspace_zero name wss
  · exact get_workspace_many name wss
  · exact get_resource_unscoped_first name r ws post pre
  · intro hg hpre hws
    unfold get_style
    rw [hg]
    simpa using style_ws_loop_first name s ws post pre hpre hws

theorem c7_witness :
    get_resource_unscoped "r"
        [⟨"w0", [], [], []⟩, ⟨"w1", [⟨"st1", 0, [⟨"r", 0⟩]⟩], [], []⟩,
         ⟨"w2", [⟨"st2", 1, [⟨"r", 1⟩]⟩], [], []⟩] =
      .ok ⟨"r", 0⟩ ∧
    get_style "sty" []
        [⟨"w0", [], [], []⟩, ⟨"w1", [], [], ["sty"]⟩, ⟨"w2", [], [], ["sty"]⟩] =
      some ⟨"sty", some "w1"⟩ := by
  constructor
  · exact (c7_cascading_lookup "r" ⟨"st", 0, []⟩ [] [⟨"w0", [], [], []⟩]
      [⟨"w2", [⟨"st2", 1, [⟨"r", 1⟩]⟩], [], []⟩]
      ⟨"w1", [⟨"st1", 0, [⟨"r", 0⟩]⟩], [], []⟩ ⟨"r", 0⟩ [] ⟨"sty", none⟩).2.2.2.2.1
      (by decide) (by decide)
  · exact (c7_cascading_lookup "sty" ⟨"st", 0, []⟩ [] [⟨"w0", [], [], []⟩]
      [⟨"w2", [], [], ["sty"]⟩] ⟨"w1", [], [], ["sty"]⟩ ⟨"r", 0⟩ []
      ⟨"sty", some "w1"⟩).2.2.2.2.2 (by decide) (by decide) (by decide)

/-! ### Branch lemmas for `get_xml` -/

theorem cacheGet_cachePut (c : Cache) (u : String) (t : Nat) (r : String) :
    cacheGet (cachePut c u t r) u = some (t, r) := by
  simp [cacheGet, cachePut]

theorem get_xml_hit (parse : String → Option α) (tr : HttpResponse) (now : Nat)
    (c : Cache) (u : String) (ts : Nat) (raw : String)
    (h : cacheGet c u = some (ts, raw)) (hv : now - ts < fiveSeconds) :
    get_xml parse tr now c u = ⟨parse_or_raise parse u raw, c, false⟩ := by
  unfold get_xml
  rw [h]
  simp [hv]

theorem get_xml_stale (parse : String → Option α) (tr : HttpResponse)
    (now : Nat) (c : Cache) (u : String) (ts : Nat) (raw : String)
    (h : cacheGet c u = some (ts, raw)) (hv : ¬now - ts < fiveSeconds) :
    get_xml parse tr now c u = getXmlFetch parse tr now c u := by
  unfold get_xml
  rw [h]
  simp [hv]

theorem get_xml_miss (parse : String → Option α) (tr : HttpResponse)
    (now : Nat) (c : Cache) (u : String) (h : cacheGet c u = none) :
    get_xml parse tr now c u = getXmlFetch parse tr now c u := by
  unfold get_xml
  rw [h]

theorem getXmlFetch_transportCalled (parse : String → Option α)
    (tr : HttpResponse) (now : Nat) (c : Cache) (u : String) :
    (getXmlFetch parse tr now c u).transportCalled = true := by
  unfold getXmlFetch
  split_ifs <;> rfl

theorem parse_or_raise_decodeError (parse : String → Option α)
    (u raw msg : String) (h : parse_or_raise parse u raw = .decodeError msg) :
    parse raw = none ∧
      msg = "GeoServer gave non-XML response for [GET " ++ u ++ "]: " ++ raw := by
  unfold parse_or_raise at h
  cases hp : parse raw with
  | some t => rw [hp] at h; cases h
  | none =>
      rw [hp] at h
      injection h with h2
      exact ⟨rfl, h2.symm⟩

/-- C4 counterexample: a GET populates the cache; `create_pg_featuretype`
then issues a successful mutating POST, but — unlike every other mutating
helper — does not clear the cache, so an identical GET one microsecond later
is served from the cache with no fresh transport call, although a mutating
call has intervened. -/
theorem c4_counterexample :
    (let firstGet := get_xml (fun s : String => some s) ⟨200, "doc"⟩ 0 [] "u"
     let mutate := create_pg_featuretype "http://gs/rest" "ft" "st" "ws"
       "EPSG:4326" 200 "" firstGet.cache
     mutate.requests ≠ [] ∧ mutate.result = .ok "" ∧
       (get_xml (fun s : String => some s) ⟨200, "doc2"⟩ 1 mutate.cache
           "u").transportCalled = false) := by
  decide

/-- C4 (amended): for every GET URL, a request issued within 5 seconds of a
prior successful identical GET returns the previously cached payload with no
new transport call; a request after 5 seconds have elapsed, or after any
cache-clearing mutating call (`delete`, `save` — every mutating helper except
`create_pg_featuretype`), issues a fresh transport call. -/
theorem c4_cache_ttl (parse : String → Option α) (resp1 resp2 : HttpResponse)
    (t0 t1 : Nat) (cache : Cache) (u href save_method message : String)
    (purge recurse : Bool) (tr : HttpResponse) (status : Nat) (body : String)
    (h0 : cacheGet cache u = none) (h1 : resp1.status = 200) :
    (t1 - t0 < fiveSeconds →
      get_xml parse resp2 t1 (get_xml parse resp1 t0 cache u).cache u =
        ⟨parse_or_raise parse u resp1.content,
          (get_xml parse resp1 t0 cache u).cache, false⟩) ∧
    (fiveSeconds ≤ t1 - t0 →
      (get_xml parse resp2 t1
          (get_xml parse resp1 t0 cache u).cache u).transportCalled = true) ∧
    ((get_xml parse resp2 t1
        (delete href purge recurse tr
          (get_xml parse resp1 t0 cache u).cache).cache u).transportCalled =
      true) ∧
    ((get_xml parse resp2 t1
        (save href save_method message status body
          (get_xml parse resp1 t0 cache u).cache).cache u).transportCalled =
      true) := by
  have hc : (get_xml parse resp1 t0 cache u).cache =
      cachePut cache u t0 resp1.content := by
    rw [get_xml_miss parse resp1 t0 cache u h0]
    unfold getXmlFetch
    rw [if_pos h1]
  have hg : cacheGet (get_xml parse resp1 t0 cache u).cache u =
      some (t0, resp1.content) := by
    rw [hc]; exact cacheGet_cachePut cache u t0 resp1.content
  refine ⟨?_, ?_, ?_, ?_⟩
  · intro hlt
    exact get_xml_hit parse resp2 t1 _ u t0 resp1.content hg hlt
  · intro hge
    rw [get_xml_stale parse resp2 t1 _ u t0 resp1.content hg (by omega)]
    exact getXmlFetch_transportCalled parse resp2 t1 _ u
  · have hdel : (delete href purge recurse tr
        (get_xml parse resp1 t0 cache u).cache).cache = [] := by
      unfold delete; split_ifs <;> rfl
    rw [hdel, get_xml_miss parse resp2 t1 [] u rfl]
    exact getXmlFetch_transportCalled parse resp2 t1 [] u
  · have hsave : (save href save_method message status body
        (get_xml parse resp1 t0 cache u).cache).cache = [] := by
      unfold save; split_ifs <;> rfl
    rw [hsave, get_xml_miss parse resp2 t1 [] u rfl]
    exact getXmlFetch_transportCalled parse resp2 t1 [] u

theorem c4_witness :
    get_xml (fun s : String => some s) ⟨200, "doc2"⟩ 3
        (get_xml (fun s : String => some s) ⟨200, "doc"⟩ 0 [] "u").cache "u" =
      ⟨parse_or_raise (fun s : String => some s) "u" "doc",
        (get_xml (fun s : String => some s) ⟨200, "doc"⟩ 0 [] "u").cache,
        false⟩ ∧
    (get_xml (fun s : String => some s) ⟨200, "doc2"⟩ 6000000
        (get_xml (fun s : String => some s) ⟨200, "doc"⟩ 0 [] "u").cache
        "u").transportCalled = true := by
  constructor
  · exact (c4_cache_ttl (fun s : String => some s) ⟨200, "doc"⟩ ⟨200, "doc2"⟩
      0 3 [] "u" "h" "PUT" "m" false false ⟨200, ""⟩ 200 "b" (by decide)
      rfl).1 (by decide)
  · exact (c4_cache_ttl (fun s : String => some s) ⟨200, "doc"⟩ ⟨200, "doc2"⟩
      0 6000000 [] "u" "h" "PUT" "m" false false ⟨200, ""⟩ 200 "b" (by decide)
      rfl).2.1 (by decide)

/-- C9: whenever `get_xml` surfaces a decode error — whether the undecodable
payload came from the cache or from a fresh fetch — the error message is the
`parse_or_raise` wrapping, which contains both the original request URL and
the raw payload. -/
theorem c9_decode_error_context (parse : String → Option α)
    (resp : HttpResponse) (now : Nat) (cache : Cache) (u msg : String)
    (h : (get_xml parse resp now cache u).result = .decodeError msg) :
    ∃ raw, parse raw = none ∧
      msg = "GeoServer gave non-XML response for [GET " ++ u ++ "]: " ++ raw := by
  rcases hc : cacheGet cache u with _ | ⟨ts, raw⟩
  · rw [get_xml_miss parse resp now cache u hc] at h
    unfold getXmlFetch at h
    split_ifs at h with hs
    all_goals first
      | exact ⟨resp.content,
          (parse_or_raise_decodeError parse u resp.content msg h).1,
          (parse_or_raise_decodeError parse u resp.content msg h).2⟩
      | simp at h
  · by_cases hv : now - ts < fiveSeconds
    · rw [get_xml_hit parse resp now cache u ts raw hc hv] at h
      exact ⟨raw, (parse_or_raise_decodeError parse u raw msg h).1,
        (parse_or_raise_decodeError parse u raw msg h).2⟩
    · rw [get_xml_stale parse resp now cache u ts raw hc hv] at h
      unfold getXmlFetch at h
      split_ifs at h with hs
      all_goals first
        | exact ⟨resp.content,
            (parse_or_raise_decodeError parse u resp.content msg h).1,
            (parse_or_raise_decodeError parse u resp.content msg h).2⟩
        | simp at h

theorem c9_witness :
    ∃ raw, (fun _ : String => (none : Option Nat)) raw = none ∧
      "GeoServer gave non-XML response for [GET u]: bad" =
        "GeoServer gave non-XML response for [GET " ++ "u" ++ "]: " ++ raw :=
  c9_decode_error_context (fun _ : String => (none : Option Nat)) ⟨200, "bad"⟩
    0 [] "u" "GeoServer gave non-XML response for [GET u]: bad" (by decide)

/-- C10: `get_xml` writes to the cache only when the fetched status is
exactly 200 — a changed cache implies status 200 — and on any other status
of an actual fetch it raises `FailedRequestError` with the response body,
leaving the whole cache (in particular the entry for that URL) unchanged. -/
theorem c10_cache_write_only_on_200 (parse : String → Option α)
    (resp : HttpResponse) (now : Nat) (cache : Cache) (u : String) :
    ((get_xml parse resp now cache u).cache ≠ cache → resp.status = 200) ∧
    (resp.status ≠ 200 →
      (get_xml parse resp now cache u).transportCalled = true →
      (get_xml parse resp now cache u).result = .failedRequest resp.content ∧
      (get_xml parse resp now cache u).cache = cache) := by
  rcases hc : cacheGet cache u with _ | ⟨ts, raw⟩
  · rw [get_xml_miss parse resp now cache u hc]
    unfold getXmlFetch
    split_ifs with hs
    · exact ⟨fun _ => hs, fun hns _ => absurd hs hns⟩
    · exact ⟨fun hne => absurd rfl hne, fun _ _ => ⟨rfl, rfl⟩⟩
  · by_cases hv : now - ts < fiveSeconds
    · rw [get_xml_hit parse resp now cache u ts raw hc hv]
      refine ⟨fun hne => absurd rfl hne, fun _ hcall => ?_⟩
      simp at hcall
    · rw [get_xml_stale parse resp now cache u ts raw hc hv]
      unfold getXmlFetch
      split_ifs with hs
      · exact ⟨fun _ => hs, fun hns _ => absurd hs hns⟩
      · exact ⟨fun hne => absurd rfl hne, fun _ _ => ⟨rfl, rfl⟩⟩

theorem c10_witness :
    ((get_xml (fun s : String => some s) ⟨404, "missing"⟩ 0
        [("u", 0, "old")] "v").cache ≠ [("u", 0, "old")] →
      (404 : Nat) = 200) ∧
    (get_xml (fun s : String => some s) ⟨404, "missing"⟩ 0 [("u", 0, "old")]
        "v").result = .failedRequest "missing" ∧
    (get_xml (fun s : String => some s) ⟨404, "missing"⟩ 0 [("u", 0, "old")]
        "v").cache = [("u", 0, "old")] := by
  refine ⟨?_, ?_⟩
  · exact (c10_cache_write_only_on_200 (fun s : String => some s)
      ⟨404, "missing"⟩ 0 [("u", 0, "old")] "v").1
  · exact (c10_cache_write_only_on_200 (fun s : String => some s)
      ⟨404, "missing"⟩ 0 [("u", 0, "old")] "v").2 (by decide) (by decide)

/-! ### Cache invalidation by the mutating helpers -/

theorem pg_issue_request_clears (serviceUrl name wsName : String)
    (storeExists : Bool) (host : String) (port : Nat) (database schema : String)
    (user : Option String) (passwd : String) (status : Nat) (respBody : String)
    (cache : Cache) (b : String)
    (hok : (pg_issue_request serviceUrl name wsName storeExists host port
      database schema user passwd status respBody cache).result = .ok b) :
    (pg_issue_request serviceUrl name wsName storeExists host port database
      schema user passwd status respBody cache).cache = [] := by
  unfold pg_issue_request at hok ⊢
  cases user with
  | none => simp at hok
  | some u => split_ifs at hok ⊢ <;> simp_all

/-- C5 counterexample: `create_pg_featuretype` issues a successful mutating
POST yet leaves a nonempty response cache untouched, so not every successful
mutating request clears the cache. -/
theorem c5_counterexample :
    (create_pg_featuretype "http://gs/rest" "ft" "st" "ws" "EPSG:4326" 200
        "created" [("u", 0, "payload")]).requests =
      [⟨"POST", "http://gs/rest/workspaces/ws/datastores/st/featuretypes.xml",
        featuretypeXml "ft" "EPSG:4326"⟩] ∧
    (create_pg_featuretype "http://gs/rest" "ft" "st" "ws" "EPSG:4326" 200
        "created" [("u", 0, "payload")]).result = .ok "" ∧
    (create_pg_featuretype "http://gs/rest" "ft" "st" "ws" "EPSG:4326" 200
        "created" [("u", 0, "payload")]).cache = [("u", 0, "payload")] ∧
    ([("u", 0, "payload")] : Cache) ≠ [] :=
  ⟨rfl, rfl, rfl, by decide⟩

/-- C5 (amended): every mutating helper of the catalog clears the entire
response cache — regardless of which entity was touched — whenever it issues
a request that succeeds (`delete`, `save`, `reload` and `add_data_to_store`
clear even on failure responses), with one exception: `create_pg_featuretype`
issues its POST and never clears the cache.  In particular deleting an entity
always clears the cache. -/
theorem c5_mutation_clears_cache
    (href save_method message serviceUrl name wsName storeName ext sld uri srs
      store : String)
    (purge recurse overwrite storeExists styleExists wsFound : Bool)
    (tr : HttpResponse) (cache : Cache) (status postStatus putStatus : Nat)
    (body respBody postResp putResp : String) (existing : Option ConnParams)
    (host : String) (port : Nat) (database schema : String)
    (user : Option String) (passwd : String) :
    (delete href purge recurse tr cache).cache = [] ∧
    (save href save_method message status body cache).cache = [] ∧
    (reload serviceUrl cache).cache = [] ∧
    (add_data_to_store serviceUrl wsName storeName status respBody cache).cache
      = [] ∧
    (∀ b, (create_shp_featurestore serviceUrl name wsName storeExists overwrite
        status respBody cache).result = .ok b →
      (create_shp_featurestore serviceUrl name wsName storeExists overwrite
        status respBody cache).cache = []) ∧
    (∀ b, (create_coveragestore serviceUrl name wsName ext storeExists
        overwrite status respBody cache).result = .ok b →
      (create_coveragestore serviceUrl name wsName ext storeExists overwrite
        status respBody cache).cache = []) ∧
    (∀ b, (create_style serviceUrl name sld styleExists overwrite postStatus
        putStatus postResp putResp cache).result = .ok b →
      (create_style serviceUrl name sld styleExists overwrite postStatus
        putStatus postResp putResp cache).cache = []) ∧
    (∀ b, (create_workspace serviceUrl name uri status cache).result = .ok b →
      (create_workspace serviceUrl name uri status cache).cache = []) ∧
    (∀ b, (set_default_workspace serviceUrl wsFound message status cache).result
        = .ok b →
      (set_default_workspace serviceUrl wsFound message status cache).requests
        ≠ [] →
      (set_default_workspace serviceUrl wsFound message status cache).cache
        = []) ∧
    (∀ b, (create_pg_featurestore serviceUrl name wsName existing overwrite
        host port database schema user passwd status respBody cache).result =
          .ok b →
      (create_pg_featurestore serviceUrl name wsName existing overwrite host
        port database schema user passwd status respBody cache).requests ≠ [] →
      (create_pg_featurestore serviceUrl name wsName existing overwrite host
        port database schema user passwd status respBody cache).cache = []) ∧
    (create_pg_featuretype serviceUrl name store wsName srs status respBody
      cache).cache = cache := by
  refine ⟨?_, ?_, ?_, ?_, ?_, ?_, ?_, ?_, ?_, ?_, ?_⟩
  · unfold delete; split_ifs <;> rfl
  · unfold save; split_ifs <;> rfl
  · rfl
  · unfold add_data_to_store; split_ifs <;> rfl
  · intro b hok
    simp only [create_shp_featurestore] at hok ⊢
    split_ifs at hok ⊢ <;> simp_all
  · intro b hok
    simp only [create_coveragestore] at hok ⊢
    split_ifs at hok ⊢ <;> simp_all
  · intro b hok
    simp only [create_style] at hok ⊢
    split_ifs at hok ⊢ <;> simp_all
  · intro b hok
    simp only [create_workspace] at hok ⊢
    split_ifs at hok ⊢ <;> simp_all
  · intro b hok hreq
    simp only [set_default_workspace] at hok hreq ⊢
    split_ifs at hok hreq ⊢ <;> simp_all
  · intro b hok hreq
    cases existing with
    | none =>
        simp only [create_pg_featurestore] at hok hreq ⊢
        split_ifs at hok hreq ⊢
        all_goals first
          | exact absurd rfl hreq
          | simp at hok
          | exact pg_issue_request_clears serviceUrl name wsName false host port
              database schema user passwd status respBody cache b hok
    | some params =>
        simp only [create_pg_featurestore] at hok hreq ⊢
        split_ifs at hok hreq ⊢
        all_goals first
          | exact absurd rfl hreq
          | simp at hok
          | exact pg_issue_request_clears serviceUrl name wsName true host port
              database schema user passwd status respBody cache b hok
  · unfold create_pg_featuretype; split_ifs <;> rfl

theorem c5_witness :
    (create_pg_featurestore "http://gs/rest" "st" "ws"
        (some ⟨"otherhost", "5432", "db", "postgres"⟩) true "localhost" 5432
        "db" "public" (some "postgres") "pw" 200 "r" [("k", 0, "v")]).cache
      = [] ∧
    (create_shp_featurestore "http://gs/rest" "s" "ws" false false 201 "r"
        [("k", 0, "v")]).cache = [] := by
  constructor
  · exact (c5_mutation_clears_cache "h" "PUT" "m" "http://gs/rest" "st" "ws"
      "sn" "geotiff" "sld" "uri" "srs" "sn" false false true false false false
      ⟨200, ""⟩ [("k", 0, "v")] 200 200 200 "b" "r" "p" "q"
      (some ⟨"otherhost", "5432", "db", "postgres"⟩) "localhost" 5432 "db"
      "public" (some "postgres") "pw").2.2.2.2.2.2.2.2.2.1 "" (by decide)
      (by decide)
  · exact (c5_mutation_clears_cache "h" "PUT" "m" "http://gs/rest" "s" "ws"
      "sn" "geotiff" "sld" "uri" "srs" "sn" false false false false false false
      ⟨200, ""⟩ [("k", 0, "v")] 201 200 200 "b" "r" "p" "q" none "localhost"
      5432 "db" "public" (some "postgres") "pw").2.2.2.2.1 "" (by decide)

/-- C6: with `overwrite=true` and an existing store whose host, port,
database and user connection parameters all equal the arguments,
`create_pg_featurestore` returns without issuing any request (the
store-lookup reads are modelled by the `existing` input, so only the
creation/update traffic is observed); when any of those four parameters
differs, it issues exactly one PUT to the existing store's endpoint. -/
theorem c6_pg_overwrite (serviceUrl name wsName host : String) (port : Nat)
    (database schema : String) (user : Option String) (passwd : String)
    (cp : ConnParams) (status : Nat) (respBody : String) (cache : Cache)
    (hcred : ¬(user = some "" ∧ passwd = "")) :
    (cp.port = toString port ∧ cp.database = database ∧ cp.host = host ∧
        user = some cp.user →
      create_pg_featurestore serviceUrl name wsName (some cp) true host port
          database schema user passwd status respBody cache =
        ⟨[], .ok "", cache⟩) ∧
    (¬(cp.port = toString port ∧ cp.database = database ∧ cp.host = host ∧
        user = some cp.user) →
      ∀ u, user = some u →
      (create_pg_featurestore serviceUrl name wsName (some cp) true host port
          database schema user passwd status respBody cache).requests =
        [⟨"PUT", restUrl serviceUrl ["workspaces", wsName, "datastores", name],
          pgDatastoreXml name host port database schema u passwd⟩]) := by
  constructor
  · intro hsame
    simp only [create_pg_featurestore]
    split_ifs <;> simp_all
  · intro hdiff u hu
    subst hu
    simp only [create_pg_featurestore, pg_issue_request]
    split_ifs <;> simp_all

theorem c6_witness :
    create_pg_featurestore "http://gs/rest" "st" "ws"
        (some ⟨"localhost", "5432", "db", "postgres"⟩) true "localhost" 5432
        "db" "public" (some "postgres") "pw" 200 "r" [("k", 0, "v")] =
      ⟨[], .ok "", [("k", 0, "v")]⟩ ∧
    (create_pg_featurestore "http://gs/rest" "st" "ws"
        (some ⟨"otherhost", "5432", "db", "postgres"⟩) true "localhost" 5432
        "db" "public" (some "postgres") "pw" 200 "r"
        [("k", 0, "v")]).requests =
      [⟨"PUT", restUrl "http://gs/rest" ["workspaces", "ws", "datastores", "st"],
        pgDatastoreXml "st" "localhost" 5432 "db" "public" "postgres" "pw"⟩] := by
  constructor
  · exact (c6_pg_overwrite "http://gs/rest" "st" "ws" "localhost" 5432 "db"
      "public" (some "postgres") "pw" ⟨"localhost", "5432", "db", "postgres"⟩
      200 "r" [("k", 0, "v")] (by decide)).1 (by decide)
  · exact (c6_pg_overwrite "http://gs/rest" "st" "ws" "localhost" 5432 "db"
      "public" (some "postgres") "pw" ⟨"otherhost", "5432", "db", "postgres"⟩
      200 "r" [("k", 0, "v")] (by decide)).2 (by decide) "postgres" rfl

/-- C8 counterexample: a DELETE answered with status 204 — inside the 2xx
range — still raises `FailedRequestError`, because `delete` accepts exactly
status 200, not the whole 2xx range. -/
theorem c8_counterexample :
    (delete "http://gs/rest/x" false false ⟨204, "gone"⟩ []).result =
      .failedRequest "gone" ∧ 200 ≤ 204 ∧ 204 < 300 := by
  decide

/-- C8 (amended): `delete` raises `FailedRequestError` exactly when the
response status differs from 200 (so 2xx statuses other than 200, such as
201 or 204, also raise), and `save` raises `FailedRequestError` exactly when
the status lies in the 4xx or 5xx range. -/
theorem c8_error_conditions (href save_method message : String)
    (purge recurse : Bool) (tr : HttpResponse) (cache : Cache) (status : Nat)
    (body : String) :
    ((delete href purge recurse tr cache).result = .failedRequest tr.content ↔
      tr.status ≠ 200) ∧
    ((save href save_method message status body cache).result =
        .failedRequest body ↔ 400 ≤ status ∧ status < 600) := by
  constructor
  · unfold delete
    split_ifs with h <;> simp [h]
  · unfold save
    split_ifs with h <;> simp [h]

end Opengeo
